import Mathlib

/-!
Verification development for the TDS Data-Extraction tool (`src/UI.py`).

The engine consumes already-decoded page text and raw table cell matrices
(PDF decoding itself is an external collaborator), so every extraction
function of `UI.py` is shallowly embedded here as a Lean function over the
decoded text / cell lists:

* `extract_details_from_pdf` — the PatternFieldExtractor (TDS Returns fields);
* `extract_table_from_pdf`   — the TableReconciler (TDS Returns line items);
* `parse_hdfc_bank_text`     — the PositionalLineParser (HDFC Bank layout);
* `parse_income_tax_text`    — the PrefixLineParser (Income Tax layout);
* the main processing loop and the `pd.concat` aggregation.

Python string primitives (`split`, `replace`, `strip`, substring tests,
`float`/`int` conversion) are re-implemented on `List Char` so every
definition is executable by the kernel.  Machine floats are modelled as
exact decimals (`Decimal`), which agrees with Python's `float()` on the
decimal literals these documents contain; `re` searches are implemented
directly for the four concrete patterns of `UI.py` (each of those patterns
is deterministic, so no backtracking is needed: every `\s+`/`\s*` there is
followed by a non-whitespace literal or digit, and all other pieces have
fixed width).
-/

namespace TDS

/-- Python `\s` (ASCII range, which covers the documents in question). -/
def isPySpace (c : Char) : Bool :=
  c = ' ' || c = '\t' || c = '\n' || c = '\r' || c = '\x0b' || c = '\x0c'

/-- Python `\d` (ASCII digits). -/
def isPyDigit (c : Char) : Bool :=
  '0' ≤ c && c ≤ '9'

/-- Python `\w` (ASCII letters, digits and underscore). -/
def isPyWord (c : Char) : Bool :=
  c.isAlphanum || c = '_'

/-- Case-insensitive character comparison, for `re.IGNORECASE`. -/
def ciEq (a b : Char) : Bool :=
  a.toLower = b.toLower

/-- Does the pattern (first argument) begin the string (second argument)? -/
def leadsWith : List Char → List Char → Bool
  | [], _ => true
  | _ :: _, [] => false
  | a :: pa, b :: pb => a == b && leadsWith pa pb

/-- Case-insensitive version of `leadsWith`. -/
def leadsWithCI : List Char → List Char → Bool
  | [], _ => true
  | _ :: _, [] => false
  | a :: pa, b :: pb => ciEq a b && leadsWithCI pa pb

/-- Split a character list at every character satisfying `p`, keeping empty
pieces — the semantics of Python's `str.split(sep)` for a one-character
separator, and of `str.splitlines`-style `split("\n")`. -/
def splitPredAux (p : Char → Bool) : List Char → List Char → List String
  | [], acc => [⟨acc.reverse⟩]
  | c :: t, acc => if p c then ⟨acc.reverse⟩ :: splitPredAux p t [] else splitPredAux p t (c :: acc)

/-- Python `s.split(c)` for a single-character separator `c`. -/
def splitPred (p : Char → Bool) (s : String) : List String :=
  splitPredAux p s.data []

/-- Python `s.split()` — split on whitespace runs, discarding empty pieces. -/
def pySplitWs (s : String) : List String :=
  (splitPred isPySpace s).filter (fun x => x ≠ "")

/-- Fuel-driven worker for multi-character `str.split(sep)`; fuel is the
length of the input plus one, which always suffices because each step
consumes at least one character. -/
def splitOnStrAux (pat : List Char) : Nat → List Char → List Char → List String
  | 0, s, acc => [⟨acc.reverse ++ s⟩]
  | _ + 1, [], acc => [⟨acc.reverse⟩]
  | n + 1, c :: t, acc =>
    if leadsWith pat (c :: t) then
      ⟨acc.reverse⟩ :: splitOnStrAux pat n ((c :: t).drop pat.length) []
    else
      splitOnStrAux pat n t (c :: acc)

/-- Python `s.split(pat)` for a non-empty separator string `pat`:
non-overlapping occurrences, scanned left to right, empty pieces kept. -/
def pySplitOn (s pat : String) : List String :=
  if pat.data.isEmpty then [s] else splitOnStrAux pat.data (s.data.length + 1) s.data []

/-- Fuel-driven worker for `str.replace`. -/
def replaceStrAux (pat repl : List Char) : Nat → List Char → List Char
  | 0, s => s
  | _ + 1, [] => []
  | n + 1, c :: t =>
    if leadsWith pat (c :: t) then
      repl ++ replaceStrAux pat repl n ((c :: t).drop pat.length)
    else
      c :: replaceStrAux pat repl n t

/-- Python `s.replace(pat, repl)` for a non-empty `pat`: every
non-overlapping occurrence, scanned left to right, is replaced. -/
def pyReplace (s pat repl : String) : String :=
  if pat.data.isEmpty then s else ⟨replaceStrAux pat.data repl.data (s.data.length + 1) s.data⟩

/-- Python `s.strip()` (whitespace stripped from both ends). -/
def pyStrip (s : String) : String :=
  ⟨(((s.data.dropWhile isPySpace).reverse.dropWhile isPySpace).reverse)⟩

/-- Python `sub in s` (substring containment). -/
def pyContains (s sub : String) : Bool :=
  go sub.data s.data
where
  /-- Try the pattern at every suffix. -/
  go (pat : List Char) : List Char → Bool
    | [] => pat.isEmpty
    | c :: t => leadsWith pat (c :: t) || go pat t

/-- Python `s.startswith(pre)`. -/
def pyStartsWith (s pre : String) : Bool :=
  leadsWith pre.data s.data

/-!
The four regular expressions of `extract_details_from_pdf`, implemented as
matchers that try to match at the head of a character list.  `pySearch`
then scans every start position left to right (the semantics of
`re.search`), and `pyFindAllAux` scans with continuation past each match
(the semantics of `re.findall`).
-/

/-- Leftmost-match search: try the matcher at each start position. -/
def pySearch (f : List Char → Option α) : List Char → Option α
  | [] => f []
  | c :: t =>
    match f (c :: t) with
    | some r => some r
    | none => pySearch f t

/-- One-or-more whitespace (`\s+`), maximal munch; returns the rest. -/
def eatWs1 (s : List Char) : Option (List Char) :=
  let rest := s.dropWhile isPySpace
  if rest.length < s.length then some rest else none

/-- Literal, case-sensitive; returns the rest. -/
def eatLit (pat : List Char) (s : List Char) : Option (List Char) :=
  if leadsWith pat s then some (s.drop pat.length) else none

/-- Literal, case-insensitive; returns the rest. -/
def eatLitCI (pat : List Char) (s : List Char) : Option (List Char) :=
  if leadsWithCI pat s then some (s.drop pat.length) else none

/-- Exactly `n` characters satisfying `p`, captured; returns them and the rest. -/
def eatExact (p : Char → Bool) (n : Nat) (s : List Char) : Option (List Char × List Char) :=
  let cap := s.take n
  if cap.length = n ∧ cap.all p then some (cap, s.drop n) else none

/-- Matcher for `period\s+(Q\d)` at the head of the list (capture only,
since this pattern is only used with `re.search`). -/
def periodMatchAt (s : List Char) : Option String := do
  let s ← eatLit "period".data s
  let s ← eatWs1 s
  match s with
  | 'Q' :: d :: _ => if isPyDigit d then some ⟨['Q', d]⟩ else none
  | _ => none

/-- Matcher for a `\d{2}/\d{2}/\d{2}` date fragment; returns capture and rest. -/
def eatShortDate (s : List Char) : Option (List Char × List Char) := do
  let (d1, s) ← eatExact isPyDigit 2 s
  let s ← eatLit "/".data s
  let (d2, s) ← eatExact isPyDigit 2 s
  let s ← eatLit "/".data s
  let (d3, s) ← eatExact isPyDigit 2 s
  some (d1 ++ '/' :: d2 ++ '/' :: d3, s)

/-- Matcher for `\(From\s+(\d{2}/\d{2}/\d{2})\s+to\s+(\d{2}/\d{2}/\d{2})`. -/
def dateRangeMatchAt (s : List Char) : Option (String × String) := do
  let s ← eatLit "(From".data s
  let s ← eatWs1 s
  let (a, s) ← eatShortDate s
  let s ← eatWs1 s
  let s ← eatLit "to".data s
  let s ← eatWs1 s
  let (b, _) ← eatShortDate s
  some (⟨a⟩, ⟨b⟩)

/-- Matcher for `Form\s+No\.\s*(\d{2}\w)` with `re.IGNORECASE`; returns the
capture and the number of characters the whole match consumed (needed by
`findall` to continue past the match). -/
def formNoMatchAt (s : List Char) : Option (String × Nat) := do
  let s1 ← eatLitCI "form".data s
  let s2 ← eatWs1 s1
  let s3 ← eatLitCI "no".data s2
  let s4 ← eatLit ".".data s3
  let s5 := s4.dropWhile isPySpace
  match s5 with
  | a :: b :: c :: rest =>
    if isPyDigit a && isPyDigit b && isPyWord c then
      some (⟨[a, b, c]⟩, s.length - rest.length)
    else none
  | _ => none

/-- Matcher for `Date:\s*(\d{2}/\d{2}/\d{4})`. -/
def dateMatchAt (s : List Char) : Option String := do
  let s ← eatLit "Date:".data s
  let s := s.dropWhile isPySpace
  let (d1, s) ← eatExact isPyDigit 2 s
  let s ← eatLit "/".data s
  let (d2, s) ← eatExact isPyDigit 2 s
  let s ← eatLit "/".data s
  let (d3, _) ← eatExact isPyDigit 4 s
  some ⟨d1 ++ '/' :: d2 ++ '/' :: d3⟩

/-- Worker for `re.findall` semantics: scan left to right; after a match of
`n` characters continue `max n 1` characters further on.  Fuel is the input
length plus one, which always suffices. -/
def pyFindAllAux (f : List Char → Option (α × Nat)) : Nat → List Char → List α
  | 0, _ => []
  | _ + 1, [] => (f []).toList.map Prod.fst
  | n + 1, c :: t =>
    match f (c :: t) with
    | some (a, cnt) => a :: pyFindAllAux f n ((c :: t).drop (max cnt 1))
    | none => pyFindAllAux f n t

/-- All matches of the form-number pattern in document order
(`form_no_box_pattern.findall(extracted_text)` in the source). -/
def form_no_findall (text : String) : List String :=
  pyFindAllAux formNoMatchAt (text.data.length + 1) text.data

/-!
4.1 PatternFieldExtractor — `extract_details_from_pdf` of `UI.py`.

The source opens the PDF and concatenates the page texts; decoding is an
external collaborator, so the embedding takes the concatenated text.  The
single-row DataFrame of the source is modelled as an association list from
column name to cell value.
-/

/-- Embedding of `extract_details_from_pdf` (the part after text decoding).
Faithful to `UI.py` lines 19–45: `search` for period, date range and date,
`findall` plus second-element selection for the form number, and the
`"Not found"` sentinel in every no-match branch. -/
def extract_details_from_pdf (extracted_text : String) : List (String × String) :=
  let period := pySearch periodMatchAt extracted_text.data
  let date_range := pySearch dateRangeMatchAt extracted_text.data
  let form_no_matches := form_no_findall extracted_text
  let form_no :=
    match form_no_matches with
    | _ :: b :: _ => b
    | _ => "Not found"
  let date := pySearch dateMatchAt extracted_text.data
  [("Period", match period with | some q => q | none => "Not found"),
   ("Date Range",
     match date_range with
     | some (a, b) => a ++ " to " ++ b
     | none => "Not found"),
   ("Form No.", form_no),
   ("Date", match date with | some d => d | none => "Not found")]

/-!
4.2 TableReconciler — `extract_table_from_pdf` of `UI.py`.

The decoder yields, per page, table matrices whose cells are strings or
`None`; the source flattens all rows of all tables into `extracted_data`.
The embedding takes that flattened list (`List RawRow`).  A row kept by the
length filter is zipped with the six fixed headers into a dict — which is
lossless, so rows are kept positional here.  `df.dropna(subset=headers,
how='all')` drops a row exactly when all six cells are `None`; when
`table_data` is empty, `pd.DataFrame([])` has no columns at all and
`dropna(subset=headers, ...)` raises `KeyError`, which the function's
`except` clause converts into a one-cell `Error` frame — modelled as the
`Except.error` branch below.
-/

/-- One raw table row: cell strings, with `none` for a `None` cell. -/
abbrev RawRow := List (Option String)

/-- The fixed six-column header schema of `extract_table_from_pdf`. -/
def tableHeaders : List String :=
  ["Sr. No.", "Return Type", "No. of Deductee / Party Records",
   "Amount Paid (₹)", "Tax Deducted / Collected (₹)", "Tax Deposited (₹)"]

/-- The accumulation loop `for row in extracted_data: if len(row) ==
len(headers): table_data.append(...)` of `UI.py` lines 67–70. -/
def buildTableData : List RawRow → List RawRow
  | [] => []
  | r :: rest =>
    if r.length = tableHeaders.length then r :: buildTableData rest
    else buildTableData rest

/-- The header-row pop of `UI.py` line 72–73: `if len(table_data) > 1 and
table_data[0]["Sr. No."] == "Sr. No.": table_data.pop(0)`.  (The first
cell of a kept row is its `"Sr. No."` dict entry.) -/
def popHeaderRow : List RawRow → List RawRow
  | [] => []
  | r :: rest =>
    if 0 < rest.length ∧ r.headD none = some "Sr. No." then rest
    else r :: rest

/-- Is every one of the row's cells `None` (pandas `NaN`)? -/
def rowAllNone (r : RawRow) : Bool :=
  r.all (fun c => c.isNone)

/-- The `df.dropna(subset=headers, how='all')` step on a frame that has the
six columns: rows whose six cells are all `None` are dropped. -/
def dropAllEmpty (rows : List RawRow) : List RawRow :=
  rows.filter (fun r => !rowAllNone r)

/-- Embedding of `extract_table_from_pdf` (after table decoding): length
filter, conditional header pop, then `dropna`.  The `Except.error` branch
is the `KeyError` that `dropna(subset=headers)` raises on the zero-row,
zero-column frame, converted by the source's `except` clause into an
`Error` result instead of a six-column table. -/
def extract_table_from_pdf (extracted_data : List RawRow) : Except String (List RawRow) :=
  let table_data := popHeaderRow (buildTableData extracted_data)
  if table_data.isEmpty then
    Except.error "KeyError: dropna subset columns not found in empty frame"
  else
    Except.ok (dropAllEmpty table_data)

/-!
4.3 PositionalLineParser — `parse_hdfc_bank_text` of `UI.py`.

The parser indexes into fixed line offsets and token positions; any
out-of-range access raises `IndexError` (Python's bare "list index out of
range", which carries no field or line information) and any failed
`float()`/`int()` conversion raises `ValueError` (whose message quotes the
offending string, not the field).  Both are modelled by `PyErr`.  `float()`
on the decimal literals of these documents is modelled exactly by
`Decimal`; `int()` by `Int`.
-/

/-- A Python exception as observed by the callers of this parser. -/
inductive PyErr where
  /-- `IndexError: list index out of range` — carries no location data. -/
  | indexError
  /-- `ValueError` from `float()`/`int()`, quoting the offending string. -/
  | valueError (offending : String)
deriving DecidableEq, Repr

/-- Exact decimal number: the value is `mantissa / 10 ^ shift`.  Models the
result of Python `float()` on the plain decimal literals these bank
receipts contain (each such literal is an exact decimal). -/
structure Decimal where
  mantissa : Int
  shift : Nat
deriving DecidableEq, Repr

/-- A scalar cell value: string, decimal number, or integer. -/
inductive PyVal where
  /-- A string field. -/
  | str (v : String)
  /-- A `float()`-parsed field. -/
  | num (v : Decimal)
  /-- An `int()`-parsed field. -/
  | int (v : Int)
deriving DecidableEq, Repr

/-- Digits to a natural number. -/
def digitsToNat (l : List Char) : Nat :=
  l.foldl (fun a c => a * 10 + (c.toNat - 48)) 0

/-- Unsigned decimal body: `digits`, `digits.`, `digits.digits` or
`.digits`. -/
def parseUnsignedDec (cs : List Char) : Option Decimal :=
  let intPart := cs.takeWhile isPyDigit
  let rest := cs.dropWhile isPyDigit
  match rest with
  | [] =>
    if intPart.isEmpty then none
    else some ⟨digitsToNat intPart, 0⟩
  | '.' :: frac =>
    if frac.all isPyDigit ∧ ¬(intPart.isEmpty ∧ frac.isEmpty) then
      some ⟨digitsToNat intPart * 10 ^ frac.length + digitsToNat frac, frac.length⟩
    else none
  | _ => none

/-- Python `float(s)` restricted to plain decimal notation (the only
notation occurring in these documents): optional surrounding whitespace,
optional sign, then a decimal body.  `none` models the `ValueError`. -/
def pyFloat (s : String) : Option Decimal :=
  let cs := (s.data.dropWhile isPySpace).reverse.dropWhile isPySpace |>.reverse
  match cs with
  | '+' :: t => parseUnsignedDec t
  | '-' :: t => (parseUnsignedDec t).map (fun d => ⟨-d.mantissa, d.shift⟩)
  | t => parseUnsignedDec t

/-- Python `int(s)`: optional surrounding whitespace, optional sign, one or
more digits.  `none` models the `ValueError`. -/
def pyInt (s : String) : Option Int :=
  let cs := (s.data.dropWhile isPySpace).reverse.dropWhile isPySpace |>.reverse
  match cs with
  | '+' :: t => if t.isEmpty || !t.all isPyDigit then none else some (digitsToNat t)
  | '-' :: t => if t.isEmpty || !t.all isPyDigit then none else some (-(digitsToNat t : Int))
  | t => if t.isEmpty || !t.all isPyDigit then none else some (digitsToNat t)

/-- Python `lines[i]`: `IndexError` when out of range (line indices here
are all non-negative). -/
def pyIndex (lines : List String) (i : Nat) : Except PyErr String :=
  match lines.get? i with
  | some l => Except.ok l
  | none => Except.error PyErr.indexError

/-- Python `xs[-1]` on a token list: `IndexError` on an empty list. -/
def pyLast (toks : List String) : Except PyErr String :=
  match toks.getLast? with
  | some t => Except.ok t
  | none => Except.error PyErr.indexError

/-- Python `xs[i]` on a token list. -/
def pyAt (toks : List String) (i : Nat) : Except PyErr String :=
  match toks.get? i with
  | some t => Except.ok t
  | none => Except.error PyErr.indexError

/-- Python `float(s)` as an `Except` computation. -/
def pyFloatE (s : String) : Except PyErr Decimal :=
  match pyFloat s with
  | some d => Except.ok d
  | none => Except.error (PyErr.valueError s)

/-- Python `int(s)` as an `Except` computation. -/
def pyIntE (s : String) : Except PyErr Int :=
  match pyInt s with
  | some n => Except.ok n
  | none => Except.error (PyErr.valueError s)

/-- The eleven field names of `parse_hdfc_bank_text`, in dict order. -/
def hdfcFieldNames : List String :=
  ["Date of Receipt", "Nature of Payment", "Basic Tax", "Interest", "Penalty",
   "Fee (Sec. 234E)", "TOTAL Amount", "Drawn on", "Payment Realisation Date",
   "Challan No", "Challan Serial No."]

/-- Embedding of `parse_hdfc_bank_text` (`UI.py` lines 92–106).  The dict
literal of the source evaluates its values top to bottom, so the first
failing access determines the exception; the `do` block follows that
order.  `split("Drawn on")[0]` always exists (`split` never returns an
empty list), hence `headD`/`getLastD`. -/
def parse_hdfc_bank_text (raw_text : String) : Except PyErr (List (String × PyVal)) := do
  let lines := splitPred (fun c => c = '\n') raw_text
  let l12 ← pyIndex lines 12
  let dateOfReceipt ← pyLast (pySplitWs l12)
  let l7 ← pyIndex lines 7
  let natureOfPayment := pyReplace (pyStrip l7) "Nature of Payment " ""
  let l9 ← pyIndex lines 9
  let basicTax ← pyFloatE (pyReplace (pyStrip (pyReplace l9 "Basic Tax" "")) "," "")
  let l14 ← pyIndex lines 14
  let t14 ← pyAt (pySplitWs l14) 1
  let interest ← pyFloatE (pyReplace t14 "," "")
  let t12 ← pyAt (pySplitWs l12) 1
  let penalty ← pyFloatE (pyReplace t12 "," "")
  let l15 ← pyIndex lines 15
  let t15 ← pyAt (pySplitWs l15) 3
  let fee ← pyFloatE (pyReplace t15 "," "")
  let l16 ← pyIndex lines 16
  let total ← pyFloatE
    (pyReplace (pyStrip (pyReplace ((pySplitOn l16 "Drawn on").headD "") "TOTAL" "")) "," "")
  let drawnOn := pyStrip ((pySplitOn l16 "Drawn on").getLastD "")
  let l19 ← pyIndex lines 19
  let realisationDate ← pyLast (pySplitWs l19)
  let l10 ← pyIndex lines 10
  let t10 ← pyLast (pySplitWs l10)
  let challanNo ← pyIntE (pyReplace t10 "," "")
  let l13 ← pyIndex lines 13
  let t13 ← pyLast (pySplitWs l13)
  let challanSerial ← pyIntE (pyReplace t13 "," "")
  pure
    [("Date of Receipt", PyVal.str dateOfReceipt),
     ("Nature of Payment", PyVal.str natureOfPayment),
     ("Basic Tax", PyVal.num basicTax),
     ("Interest", PyVal.num interest),
     ("Penalty", PyVal.num penalty),
     ("Fee (Sec. 234E)", PyVal.num fee),
     ("TOTAL Amount", PyVal.num total),
     ("Drawn on", PyVal.str drawnOn),
     ("Payment Realisation Date", PyVal.str realisationDate),
     ("Challan No", PyVal.int challanNo),
     ("Challan Serial No.", PyVal.int challanSerial)]

/-!
4.4 PrefixLineParser — `parse_income_tax_text` of `UI.py`.

`details` is a Python dict: assigning to an existing key replaces its value
in place (keeping its position), assigning a new key appends it.  The loop
body is an `if/elif` chain, so at most the first matching predicate of a
line fires.
-/

/-- Python dict assignment `d[k] = v` on an insertion-ordered dict
represented as an association list. -/
def dictInsert (d : List (String × String)) (k v : String) : List (String × String) :=
  if d.any (fun p => p.1 == k) then
    d.map (fun p => if p.1 = k then (k, v) else p)
  else
    d ++ [(k, v)]

/-- Python `line.split(sep)[-1]` (the separator is absent from the result;
`split` never returns an empty list, so `[-1]` cannot fail). -/
def lastSplitPiece (line sep : String) : String :=
  (pySplitOn line sep).getLastD ""

/-- The loop body of `parse_income_tax_text` (`UI.py` lines 120–138): the
`if/elif` chain over one line, updating the dict. -/
def incomeTaxStep (details : List (String × String)) (line : String) : List (String × String) :=
  if pyContains line "Nature of Payment" then
    dictInsert details "Nature of Payment" (pyStrip (lastSplitPiece line ":"))
  else if pyContains line "Amount (in Rs.)" then
    dictInsert details "Amount (in Rs.)" (pyStrip (lastSplitPiece line ":"))
  else if pyContains line "Challan No" then
    dictInsert details "Challan No." (pyStrip (lastSplitPiece line ":"))
  else if pyContains line "Tender Date" then
    let tender_date_raw := lastSplitPiece line ":"
    let tender_date_cleaned := pyStrip ((pySplitOn tender_date_raw "Tax Breakup Details").headD "")
    dictInsert details "Tender Date" tender_date_cleaned
  else if pyStartsWith line "DInterest" then
    dictInsert details "Interest" (pyStrip (lastSplitPiece line "₹"))
  else if pyStartsWith line "EPenalty" then
    dictInsert details "Penalty" (pyStrip (lastSplitPiece line "₹"))
  else if pyStartsWith line "FFee under section 234E" then
    dictInsert details "Fee (Sec. 234E)" (pyStrip (lastSplitPiece line "₹"))
  else if pyStartsWith line "Total (A+B+C+D+E+F)" then
    dictInsert details "TOTAL" (pyStrip (lastSplitPiece line "₹"))
  else
    details

/-- Embedding of `parse_income_tax_text`: fold the `if/elif` chain over the
lines, starting from the empty dict. -/
def parse_income_tax_text (text : String) : List (String × String) :=
  (splitPred (fun c => c = '\n') text).foldl incomeTaxStep []

/-- The eight field names `parse_income_tax_text` can ever emit. -/
def incomeTaxFieldNames : List String :=
  ["Nature of Payment", "Amount (in Rs.)", "Challan No.", "Tender Date",
   "Interest", "Penalty", "Fee (Sec. 234E)", "TOTAL"]

/-!
4.5 / 4.6 DocumentProcessor and Aggregator — the main processing loop of
`UI.py` (lines 197–223) and `pd.concat`.

A unified-table row is an association list from column name to cell value;
a cell that a row does not mention is the `NaN` that `pd.concat` fills in.
DataFrame cells holding `None` are `NaN` as well, so a raw table cell
`none` contributes no unified-table cell.  Per document the loop body
builds `combined_df` (a list of rows); an exception escaping a parser is
caught by the loop's `except`, which emits the
`Error processing '<name>': <message>` report and moves on — the document
then contributes no rows.  `pd.concat(..., ignore_index=True)` keeps every
row of every frame in submission order.
-/

/-- One unified-table row. -/
abbrev UTRow := List (String × PyVal)

/-- The layout profile selected once per batch in the sidebar. -/
inductive Profile where
  /-- "TDS Returns". -/
  | tdsReturns
  /-- "TDS Payments" / "HDFC Bank". -/
  | hdfcBank
  /-- "TDS Payments" / "Income Tax Department". -/
  | incomeTax
deriving DecidableEq, Repr

/-- A document as the engine sees it: its upload name, its decoded full
text, and its flattened raw table rows. -/
structure Doc where
  name : String
  text : String
  tables : List RawRow
deriving Repr

/-- A kept six-cell table row as a unified-table row: cells are zipped
with the six headers and `None` cells become missing (`NaN`) cells. -/
def rawRowToUTRow (r : RawRow) : UTRow :=
  (tableHeaders.zip r).filterMap (fun hc => hc.2.map (fun s => (hc.1, PyVal.str s)))

/-- A field record (string-valued association list) as a unified-table row. -/
def strRecordToUTRow (d : List (String × String)) : UTRow :=
  d.map (fun kv => (kv.1, PyVal.str kv.2))

/-- Python `str(e)` for the exceptions `parse_hdfc_bank_text` raises (the
conversion errors quote the offending literal; the exact surrounding
words of the CPython message are immaterial to every claim below). -/
def pyErrMsg : PyErr → String
  | PyErr.indexError => "list index out of range"
  | PyErr.valueError s => "could not convert string: '" ++ s ++ "'"

/-- The `try` body of the main loop for one document: the rows of
`combined_df`, or the exception that escaped a parser.  For "TDS Returns"
both extract functions catch internally (an extraction error surfaces as
an `Error` row of the combined frame, not as an exception), so that branch
never fails; for "HDFC Bank" the parser's exception escapes to the loop;
"Income Tax Department" parsing is total. -/
def processOne (p : Profile) (d : Doc) : Except String (List UTRow) :=
  match p with
  | Profile.tdsReturns =>
    let detailsRow := strRecordToUTRow (extract_details_from_pdf d.text)
    let tableRows :=
      match extract_table_from_pdf d.tables with
      | Except.ok rows => rows.map rawRowToUTRow
      | Except.error e => [[("Error", PyVal.str e)]]
    Except.ok (detailsRow :: tableRows)
  | Profile.hdfcBank =>
    match parse_hdfc_bank_text d.text with
    | Except.ok fields => Except.ok [fields]
    | Except.error e => Except.error (pyErrMsg e)
  | Profile.incomeTax =>
    Except.ok [strRecordToUTRow (parse_income_tax_text d.text)]

/-- The main processing loop, in document submission order: successful
documents append their row lists to `extracted_data`; a document whose
parser raises gets an `st.error` report naming it and is skipped. -/
def mainLoop (p : Profile) : List Doc → List (List UTRow) × List String
  | [] => ([], [])
  | d :: rest =>
    match processOne p d with
    | Except.ok rows =>
      let r := mainLoop p rest
      (rows :: r.1, r.2)
    | Except.error e =>
      let r := mainLoop p rest
      (r.1, ("Error processing '" ++ d.name ++ "': " ++ e) :: r.2)

/-- The row content of `pd.concat(frames, ignore_index=True)`: all rows of
all frames, in order. -/
def aggregate (frames : List (List UTRow)) : List UTRow :=
  frames.flatten

/-!
Concrete documents used by the theorems below.
-/

/-- The twenty lines (indices 0–19) of the fixed HDFC Bank reference
receipt: every line offset the parser reads is populated the way the
layout of `parse_hdfc_bank_text` assumes. -/
def hdfcRefLines : List String :=
  ["CHALLAN RECEIPT",
   "HDFC BANK",
   "TAN MUMX00000X",
   "Name XYZ PVT LTD",
   "Assessment Year 2024-25",
   "Financial Year 2023-24",
   "Major Head Income Tax",
   "Nature of Payment TDS on Salary",
   "Amount breakup",
   "Basic Tax 1,00,000.00",
   "Surcharge 0.00 Challan No 12345",
   "Education Cess 0.00",
   "Penalty 250.00 Date of Receipt 26/07/2023",
   "BSR 0510308 Challan Serial No. 67890",
   "Interest 1,500.50 extra",
   "Fee u/s 234E 200.00",
   "TOTAL 1,01,950.50 Drawn on HDFC Bank Cheque",
   "Rupees One Lakh Only",
   "Tender Date 26/07/2023",
   "Payment Realisation Date 27/07/2023"]

/-- The reference receipt as one text. -/
def hdfcRefDoc : String :=
  String.intercalate "\n" hdfcRefLines

/-- The reference receipt truncated to its first 10 lines: every line the
parser needs from index 12 on is missing. -/
def hdfcRefDoc10 : String :=
  String.intercalate "\n" (hdfcRefLines.take 10)

/-- The eleven fields the parser extracts from the reference receipt
(numeric fields parsed, with the `,` thousands separators stripped). -/
def hdfcRefFields : List (String × PyVal) :=
  [("Date of Receipt", PyVal.str "26/07/2023"),
   ("Nature of Payment", PyVal.str "TDS on Salary"),
   ("Basic Tax", PyVal.num ⟨10000000, 2⟩),
   ("Interest", PyVal.num ⟨150050, 2⟩),
   ("Penalty", PyVal.num ⟨25000, 2⟩),
   ("Fee (Sec. 234E)", PyVal.num ⟨20000, 2⟩),
   ("TOTAL Amount", PyVal.num ⟨10195050, 2⟩),
   ("Drawn on", PyVal.str "HDFC Bank Cheque"),
   ("Payment Realisation Date", PyVal.str "27/07/2023"),
   ("Challan No", PyVal.int 12345),
   ("Challan Serial No.", PyVal.int 67890)]

/-- A TDS Returns sample text in which the form-number pattern matches
three times in document order (`24Q`, `26Q`, `27Q`). -/
def tdsSampleText : String :=
  "TDS return for period Q2 (From 01/04/23 to 30/06/23) Form No. 24Q and form  no.26Q also FORM NO. 27Q Date: 15/07/2023"

/-!
Helper lemmas about the embedded functions.
-/

theorem lookup_period (text : String) :
    (extract_details_from_pdf text).lookup "Period" =
      some (match pySearch periodMatchAt text.data with
            | some q => q
            | none => "Not found") := rfl

theorem lookup_date_range (text : String) :
    (extract_details_from_pdf text).lookup "Date Range" =
      some (match pySearch dateRangeMatchAt text.data with
            | some (a, b) => a ++ " to " ++ b
            | none => "Not found") := rfl

theorem lookup_form_no (text : String) :
    (extract_details_from_pdf text).lookup "Form No." =
      some (match form_no_findall text with
            | _ :: b :: _ => b
            | _ => "Not found") := rfl

theorem lookup_date (text : String) :
    (extract_details_from_pdf text).lookup "Date" =
      some (match pySearch dateMatchAt text.data with
            | some d => d
            | none => "Not found") := rfl

/-- C1: for every input text, the form-number field of
`extract_details_from_pdf` is the second form-number match in document
order when at least two matches exist (for matches `[A, B, C]` it is `B`),
and the sentinel `"Not found"` when fewer than two matches exist — also
when exactly one match exists. -/
theorem form_no_second_match (text : String) :
    (∀ a b rest, form_no_findall text = a :: b :: rest →
      (extract_details_from_pdf text).lookup "Form No." = some b) ∧
    (∀ a, form_no_findall text = [a] →
      (extract_details_from_pdf text).lookup "Form No." = some "Not found") ∧
    (form_no_findall text = [] →
      (extract_details_from_pdf text).lookup "Form No." = some "Not found") := by
  refine ⟨?_, ?_, ?_⟩
  · intro a b rest h
    rw [lookup_form_no, h]
  · intro a h
    rw [lookup_form_no, h]
  · intro h
    rw [lookup_form_no, h]

/-- Witness for C1: on the sample text the three matches are
`["24Q", "26Q", "27Q"]` and the field is `"26Q"`; on a text with exactly
one match the field is `"Not found"`. -/
theorem form_no_second_match_witness :
    (extract_details_from_pdf tdsSampleText).lookup "Form No." = some "26Q" ∧
    (extract_details_from_pdf "Form No. 24Q only").lookup "Form No." = some "Not found" :=
  ⟨(form_no_second_match tdsSampleText).1 "24Q" "26Q" ["27Q"] rfl,
   (form_no_second_match "Form No. 24Q only").2.1 "24Q" rfl⟩

/-- C2: for every input text and each of the four fields, zero matches of
the field's pattern yield exactly the sentinel `"Not found"` (the
embedding is a total function: with the page text already decoded, no
operation of `extract_details_from_pdf` can raise, so absence of a match
is a value, never an error). -/
theorem no_match_yields_sentinel (text : String) :
    (pySearch periodMatchAt text.data = none →
      (extract_details_from_pdf text).lookup "Period" = some "Not found") ∧
    (pySearch dateRangeMatchAt text.data = none →
      (extract_details_from_pdf text).lookup "Date Range" = some "Not found") ∧
    (form_no_findall text = [] →
      (extract_details_from_pdf text).lookup "Form No." = some "Not found") ∧
    (pySearch dateMatchAt text.data = none →
      (extract_details_from_pdf text).lookup "Date" = some "Not found") := by
  refine ⟨?_, ?_, ?_, ?_⟩
  · intro h; rw [lookup_period, h]
  · intro h; rw [lookup_date_range, h]
  · intro h; rw [lookup_form_no, h]
  · intro h; rw [lookup_date, h]

/-- Witness for C2: a text none of the four patterns matches yields the
sentinel in all four fields. -/
theorem no_match_yields_sentinel_witness :
    (extract_details_from_pdf "hello world").lookup "Period" = some "Not found" ∧
    (extract_details_from_pdf "hello world").lookup "Date Range" = some "Not found" ∧
    (extract_details_from_pdf "hello world").lookup "Form No." = some "Not found" ∧
    (extract_details_from_pdf "hello world").lookup "Date" = some "Not found" :=
  ⟨(no_match_yields_sentinel "hello world").1 rfl,
   (no_match_yields_sentinel "hello world").2.1 rfl,
   (no_match_yields_sentinel "hello world").2.2.1 rfl,
   (no_match_yields_sentinel "hello world").2.2.2 rfl⟩

/-- C8: for every input text the record of `extract_details_from_pdf`
carries exactly the four schema field names, each exactly once and in
schema order — also on total extraction failure, where every field holds
the sentinel (shown on the empty document). -/
theorem record_schema_fixed (text : String) :
    (extract_details_from_pdf text).map Prod.fst =
        ["Period", "Date Range", "Form No.", "Date"] ∧
    extract_details_from_pdf "" =
        [("Period", "Not found"), ("Date Range", "Not found"),
         ("Form No.", "Not found"), ("Date", "Not found")] :=
  ⟨rfl, rfl⟩

/-!
TableReconciler theorems (C3, C4).
-/

/-- The length of the fixed header schema. -/
theorem tableHeaders_length : tableHeaders.length = 6 := rfl

theorem buildTableData_eq_filter (data : List RawRow) :
    buildTableData data = data.filter (fun r => decide (r.length = 6)) := by
  induction data with
  | nil => rfl
  | cons r t ih =>
    by_cases h : r.length = 6
    · simp [buildTableData, tableHeaders_length, h, ih]
    · simp [buildTableData, tableHeaders_length, h, ih]

theorem popHeaderRow_ne_nil {l : List RawRow} (h : l ≠ []) : popHeaderRow l ≠ [] := by
  cases l with
  | nil => exact absurd rfl h
  | cons r rest =>
    simp only [popHeaderRow]
    split
    · next hc => exact List.length_pos.mp hc.1
    · exact List.cons_ne_nil r rest

/-- A pdfplumber-decoded repetition of the table header: a six-cell row
whose cells are the header labels themselves. -/
def headerRawRow : RawRow := tableHeaders.map some

/-- A plain six-cell data row. -/
def sampleDataRow : RawRow :=
  [some "1", some "24Q", some "2", some "50000", some "5000", some "5000"]

/-- A six-cell row that is entirely empty (all cells decoded as `None`). -/
def allNoneRow : RawRow := [none, none, none, none, none, none]

/-- A malformed five-cell row. -/
def fiveCellRow : RawRow := [some "1", some "24Q", some "2", some "50000", some "5000"]

/-- Sample flattened table input: a malformed row, a repeated header
twice, and one data row. -/
def tableSampleData : List RawRow :=
  [fiveCellRow, headerRawRow, headerRawRow, sampleDataRow]

/-- Counterexample to C3: when the header row is the sole surviving row,
`extract_table_from_pdf` keeps it (the pop is guarded by
`len(table_data) > 1`), while the claim demands its removal. -/
theorem sole_header_row_kept :
    headerRawRow.headD none = some "Sr. No." ∧
    extract_table_from_pdf [headerRawRow] = Except.ok [headerRawRow] :=
  ⟨rfl, rfl⟩

/-- C3 (amended): rows that do not have exactly six cells are discarded
and six-cell rows are kept (the kept rows are exactly the six-cell ones,
in order); the leading header row is removed precisely when it is the
first surviving row, at least one more row survives, and its first cell is
the literal `"Sr. No."` — it is removed only once, and a sole surviving
header row is kept. -/
theorem table_filter_and_header_pop (data : List RawRow) :
    buildTableData data = data.filter (fun r => decide (r.length = 6)) ∧
    (∀ r₁ r₂ rest, buildTableData data = r₁ :: r₂ :: rest →
      r₁.headD none = some "Sr. No." →
      popHeaderRow (buildTableData data) = r₂ :: rest) ∧
    (∀ r, buildTableData data = [r] →
      popHeaderRow (buildTableData data) = [r]) ∧
    (∀ r₁ rest, buildTableData data = r₁ :: rest →
      ¬r₁.headD none = some "Sr. No." →
      popHeaderRow (buildTableData data) = r₁ :: rest) := by
  refine ⟨buildTableData_eq_filter data, ?_, ?_, ?_⟩
  · intro r₁ r₂ rest h hr
    rw [h]
    simp only [popHeaderRow]
    rw [if_pos ⟨by simp, hr⟩]
  · intro r h
    rw [h]
    simp only [popHeaderRow]
    rw [if_neg]
    rintro ⟨h0, -⟩
    simp at h0
  · intro r₁ rest h hr
    rw [h]
    simp only [popHeaderRow]
    rw [if_neg]
    rintro ⟨-, hc⟩
    exact hr hc

/-- Witness for C3 (amended): on the sample input the five-cell row is
dropped, the first of the two surviving header copies is removed — only
once — and on the sole-header input nothing is removed. -/
theorem table_filter_and_header_pop_witness :
    buildTableData tableSampleData = [headerRawRow, headerRawRow, sampleDataRow] ∧
    popHeaderRow (buildTableData tableSampleData) = [headerRawRow, sampleDataRow] ∧
    popHeaderRow (buildTableData [headerRawRow]) = [headerRawRow] :=
  ⟨rfl,
   (table_filter_and_header_pop tableSampleData).2.1
     headerRawRow headerRawRow [sampleDataRow] rfl rfl,
   (table_filter_and_header_pop [headerRawRow]).2.2.1 headerRawRow rfl⟩

/-- Counterexample to C4: when no row survives the six-cell filter the
result is the caught `dropna` `KeyError` converted to an `Error` frame,
not an empty six-column table. -/
theorem empty_table_data_is_error :
    extract_table_from_pdf [] =
      Except.error "KeyError: dropna subset columns not found in empty frame" ∧
    (extract_table_from_pdf []).isOk = false :=
  ⟨rfl, rfl⟩

/-- C4 (amended): whenever at least one row survives the six-cell filter,
the result is a table consisting of the surviving rows after header
removal with every all-empty row dropped (possibly zero rows, not an
error, and no returned row is entirely empty); when no row survives the
filter, `pd.DataFrame([])` has no columns, `dropna(subset=headers)` raises
`KeyError`, and the `except` clause returns an `Error` frame. -/
theorem table_empty_rows_dropped (data : List RawRow) :
    (buildTableData data ≠ [] →
      extract_table_from_pdf data =
        Except.ok (dropAllEmpty (popHeaderRow (buildTableData data)))) ∧
    (∀ rows, extract_table_from_pdf data = Except.ok rows →
      ∀ r ∈ rows, rowAllNone r = false) ∧
    (buildTableData data = [] →
      extract_table_from_pdf data =
        Except.error "KeyError: dropna subset columns not found in empty frame") := by
  refine ⟨?_, ?_, ?_⟩
  · intro h
    unfold extract_table_from_pdf
    rw [if_neg]
    simpa [List.isEmpty_iff] using popHeaderRow_ne_nil h
  · intro rows hrows r hr
    simp only [extract_table_from_pdf] at hrows
    split at hrows
    · exact absurd hrows (by simp)
    · cases hrows
      have := List.of_mem_filter hr
      simpa using this
  · intro h
    unfold extract_table_from_pdf
    rw [if_pos]
    simp [h, popHeaderRow]

/-- Witness for C4 (amended): an input whose surviving rows are an
all-empty row and a data row yields just the data row; an input with one
all-empty surviving row yields the zero-row table; the empty input yields
the `Error` frame. -/
theorem table_empty_rows_dropped_witness :
    extract_table_from_pdf [fiveCellRow, allNoneRow, sampleDataRow] =
      Except.ok [sampleDataRow] ∧
    extract_table_from_pdf [allNoneRow] = Except.ok [] ∧
    rowAllNone allNoneRow = true ∧
    extract_table_from_pdf [] =
      Except.error "KeyError: dropna subset columns not found in empty frame" :=
  ⟨(table_empty_rows_dropped [fiveCellRow, allNoneRow, sampleDataRow]).1 (by decide),
   (table_empty_rows_dropped [allNoneRow]).1 (by decide),
   rfl,
   (table_empty_rows_dropped []).2.2 rfl⟩

/-!
PositionalLineParser theorems (C5).
-/

theorem exceptBind_ok {α β : Type} {x : Except PyErr α} {f : α → Except PyErr β} {b : β}
    (h : (x >>= f) = Except.ok b) : ∃ a, x = Except.ok a ∧ f a = Except.ok b := by
  cases x with
  | error e => simp [Bind.bind, Except.bind] at h
  | ok a => exact ⟨a, rfl, by simpa [Bind.bind, Except.bind] using h⟩

/-- Counterexample to C5: the out-of-range failure is Python's bare
`IndexError` — the very same exception value whether line 12 is the first
missing line (reference document truncated to 10 lines) or the whole
document is empty, so the error identifies neither the offending field nor
the missing line. -/
theorem truncated_error_carries_no_location :
    parse_hdfc_bank_text hdfcRefDoc10 = Except.error PyErr.indexError ∧
    parse_hdfc_bank_text "" = Except.error PyErr.indexError :=
  ⟨rfl, rfl⟩

/-- C5 (amended): on the full reference document the parser returns all
eleven fields, with numeric fields parsed as numbers and thousands
separators stripped; truncating the document to 10 lines makes it fail
with an error (an `IndexError`, which does not name the missing line)
rather than substitute a sentinel; and every successful parse carries
exactly the eleven field names, so a missing field can never be reported
inside a success. -/
theorem parse_hdfc_reference_behavior :
    parse_hdfc_bank_text hdfcRefDoc = Except.ok hdfcRefFields ∧
    parse_hdfc_bank_text hdfcRefDoc10 = Except.error PyErr.indexError ∧
    (∀ text r, parse_hdfc_bank_text text = Except.ok r →
      r.map Prod.fst = hdfcFieldNames) := by
  refine ⟨rfl, rfl, ?_⟩
  intro text r h
  unfold parse_hdfc_bank_text at h
  repeat obtain ⟨_, -, h⟩ := exceptBind_ok h
  simp only [pure, Except.pure] at h
  cases h
  rfl

/-- Witness for C5 (amended): the key-list property applied to the
reference parse. -/
theorem parse_hdfc_reference_behavior_witness :
    hdfcRefFields.map Prod.fst = hdfcFieldNames :=
  (parse_hdfc_reference_behavior).2.2 hdfcRefDoc hdfcRefFields rfl

/-!
PrefixLineParser theorems (C6, C10).
-/

theorem dropWhile_rdropWhile (p : Char → Bool) (m : List Char) (hm : m.dropWhile p = m) :
    (List.rdropWhile p m).dropWhile p = List.rdropWhile p m := by
  rw [List.dropWhile_eq_self_iff]
  intro hl
  have hpre : List.rdropWhile p m <+: m := List.rdropWhile_prefix p m
  have hlen : 0 < m.length := lt_of_lt_of_le hl (List.IsPrefix.length_le hpre)
  have hget : (List.rdropWhile p m).get ⟨0, hl⟩ = m.get ⟨0, hlen⟩ := by
    have := List.IsPrefix.getElem hpre (by simpa using hl)
    simpa [List.get_eq_getElem] using this
  have hnot := List.dropWhile_get_zero_not (p := p) m (by rw [hm]; exact hlen)
  rw [hget]
  simpa [hm] using hnot

/-- Stripping is idempotent: the values the prefix parser stores are
exactly the trimmed strings. -/
theorem pyStrip_idem (s : String) : pyStrip (pyStrip s) = pyStrip s := by
  have h1 : (pyStrip s).data = List.rdropWhile isPySpace (s.data.dropWhile isPySpace) := rfl
  have h2 : (s.data.dropWhile isPySpace).dropWhile isPySpace = s.data.dropWhile isPySpace :=
    List.dropWhile_idempotent isPySpace s.data
  have h3 : (pyStrip s).data.dropWhile isPySpace = (pyStrip s).data := by
    rw [h1]; exact dropWhile_rdropWhile isPySpace _ h2
  show (⟨List.rdropWhile isPySpace ((pyStrip s).data.dropWhile isPySpace)⟩ : String) = pyStrip s
  rw [h3, h1, List.rdropWhile_idempotent]
  rfl

theorem dictInsert_keys (d : List (String × String)) (k v : String) :
    (dictInsert d k v).map Prod.fst =
      if d.any (fun p => p.1 == k) then d.map Prod.fst else d.map Prod.fst ++ [k] := by
  unfold dictInsert
  split
  · rw [List.map_map]
    apply List.map_congr_left
    intro p _
    by_cases hpk : p.1 = k
    · simp [hpk]
    · simp [hpk]
  · simp

theorem dictInsert_mem {d : List (String × String)} {k v : String} {q : String × String}
    (h : q ∈ dictInsert d k v) : q ∈ d ∨ q = (k, v) := by
  unfold dictInsert at h
  split at h
  · obtain ⟨p, hp, hq⟩ := List.mem_map.mp h
    by_cases hpk : p.1 = k
    · right; rw [← hq]; simp [hpk]
    · left; rw [← hq]; simpa [hpk] using hp
  · rcases List.mem_append.mp h with h | h
    · exact Or.inl h
    · exact Or.inr (List.mem_singleton.mp h)

theorem dictInsert_nodup {d : List (String × String)} {k v : String}
    (h : (d.map Prod.fst).Nodup) : ((dictInsert d k v).map Prod.fst).Nodup := by
  rw [dictInsert_keys]
  split
  · exact h
  · next hany =>
    have hk : k ∉ d.map Prod.fst := by
      intro hmem
      obtain ⟨p, hp, hq⟩ := List.mem_map.mp hmem
      exact hany (List.any_eq_true.mpr ⟨p, hp, by simp [hq]⟩)
    rw [List.nodup_append]
    exact ⟨h, List.nodup_singleton k, by rw [List.disjoint_singleton]; exact hk⟩

theorem lookup_append_new (d : List (String × String)) (k v : String)
    (h : d.any (fun p => p.1 == k) = false) :
    (d ++ [(k, v)]).lookup k = some v := by
  induction d with
  | nil => simp [List.lookup]
  | cons p t ih =>
    simp only [List.any_cons, Bool.or_eq_false_iff] at h
    have h1 : p.1 ≠ k := by
      have := h.1
      rwa [beq_eq_false_iff_ne] at this
    have hk : (k == p.1) = false := by
      rw [beq_eq_false_iff_ne]
      exact Ne.symm h1
    simp only [List.cons_append, List.lookup, hk]
    exact ih h.2

theorem lookup_map_update (d : List (String × String)) (k v : String)
    (h : d.any (fun p => p.1 == k) = true) :
    (d.map (fun p => if p.1 = k then (k, v) else p)).lookup k = some v := by
  induction d with
  | nil => simp at h
  | cons p t ih =>
    by_cases hpk : p.1 = k
    · rw [List.map_cons, if_pos hpk]
      simp [List.lookup]
    · have hk : (k == p.1) = false := by
        rw [beq_eq_false_iff_ne]
        exact fun e => hpk e.symm
      rw [List.map_cons, if_neg hpk]
      simp only [List.lookup, hk]
      apply ih
      simp only [List.any_cons, Bool.or_eq_true] at h
      rcases h with h1 | h2
      · exact absurd (by simpa using h1) hpk
      · exact h2

theorem lookup_dictInsert (d : List (String × String)) (k v : String) :
    (dictInsert d k v).lookup k = some v := by
  unfold dictInsert
  split
  · next h => exact lookup_map_update d k v h
  · next h => exact lookup_append_new d k v (Bool.eq_false_iff.mpr h)

/-- No predicate of the `if/elif` chain matches the line. -/
def lineMatchesNone (line : String) : Prop :=
  pyContains line "Nature of Payment" = false ∧
  pyContains line "Amount (in Rs.)" = false ∧
  pyContains line "Challan No" = false ∧
  pyContains line "Tender Date" = false ∧
  pyStartsWith line "DInterest" = false ∧
  pyStartsWith line "EPenalty" = false ∧
  pyStartsWith line "FFee under section 234E" = false ∧
  pyStartsWith line "Total (A+B+C+D+E+F)" = false

/-- C6: the line `"Nature of Payment: TDS on Salary"` yields the field
value `"TDS on Salary"`; a line matching no predicate contributes
nothing; and a line whose first matching predicate is the
nature-of-payment label stores exactly the text after the last colon,
trimmed, under that field — overwriting any earlier value, so when two
lines match the same predicate the later line wins (shown closed on a
two-line document). -/
theorem income_tax_first_predicate_semantics :
    parse_income_tax_text "Nature of Payment: TDS on Salary" =
      [("Nature of Payment", "TDS on Salary")] ∧
    (∀ d line, lineMatchesNone line → incomeTaxStep d line = d) ∧
    (∀ d line, pyContains line "Nature of Payment" = true →
      incomeTaxStep d line =
        dictInsert d "Nature of Payment" (pyStrip (lastSplitPiece line ":")) ∧
      (incomeTaxStep d line).lookup "Nature of Payment" =
        some (pyStrip (lastSplitPiece line ":"))) ∧
    parse_income_tax_text "Nature of Payment: A\nNature of Payment: B" =
      [("Nature of Payment", "B")] := by
  refine ⟨rfl, ?_, ?_, rfl⟩
  · intro d line h
    obtain ⟨h1, h2, h3, h4, h5, h6, h7, h8⟩ := h
    simp [incomeTaxStep, h1, h2, h3, h4, h5, h6, h7, h8]
  · intro d line h
    have hstep : incomeTaxStep d line =
        dictInsert d "Nature of Payment" (pyStrip (lastSplitPiece line ":")) := by
      unfold incomeTaxStep
      rw [if_pos h]
    exact ⟨hstep, by rw [hstep, lookup_dictInsert]⟩

/-- Witness for C6: a line with no matching predicate leaves the dict
unchanged, and a second nature-of-payment line overwrites the earlier
value. -/
theorem income_tax_first_predicate_semantics_witness :
    incomeTaxStep [("Interest", "5")] "just some text" = [("Interest", "5")] ∧
    (incomeTaxStep [("Nature of Payment", "X")]
        "Nature of Payment: TDS on Salary").lookup "Nature of Payment" =
      some "TDS on Salary" :=
  ⟨(income_tax_first_predicate_semantics).2.1 [("Interest", "5")] "just some text"
     ⟨rfl, rfl, rfl, rfl, rfl, rfl, rfl, rfl⟩,
   ((income_tax_first_predicate_semantics).2.2.1 [("Nature of Payment", "X")]
     "Nature of Payment: TDS on Salary" rfl).2⟩

/-- The invariant the prefix parser maintains: keys are pairwise distinct
members of the eight-name schema and every value is a trimmed string. -/
def IncomeInv (d : List (String × String)) : Prop :=
  (d.map Prod.fst).Nodup ∧ ∀ q ∈ d, q.1 ∈ incomeTaxFieldNames ∧ pyStrip q.2 = q.2

theorem dictInsert_inv {d : List (String × String)} {k v : String}
    (h : IncomeInv d) (hk : k ∈ incomeTaxFieldNames) (hv : pyStrip v = v) :
    IncomeInv (dictInsert d k v) := by
  refine ⟨dictInsert_nodup h.1, ?_⟩
  intro q hq
  rcases dictInsert_mem hq with hq | rfl
  · exact h.2 q hq
  · exact ⟨hk, hv⟩

theorem incomeTaxStep_inv (d : List (String × String)) (line : String)
    (h : IncomeInv d) : IncomeInv (incomeTaxStep d line) := by
  unfold incomeTaxStep
  repeat' split
  all_goals first
    | exact h
    | exact dictInsert_inv h (by decide) (pyStrip_idem _)

theorem foldl_income_inv (ls : List String) (d : List (String × String))
    (h : IncomeInv d) : IncomeInv (ls.foldl incomeTaxStep d) := by
  induction ls generalizing d with
  | nil => exact h
  | cons a t ih => exact ih _ (incomeTaxStep_inv d a h)

/-- C10: for every input text the prefix parser returns a dict whose keys
are pairwise-distinct members of the eight fixed field names and whose
values are trimmed strings (and the parser, being a total function of the
text, never raises; it performs no numeric conversion — every value is a
`String`). -/
theorem parse_income_tax_invariants (text : String) :
    ((parse_income_tax_text text).map Prod.fst).Nodup ∧
    ∀ q ∈ parse_income_tax_text text,
      q.1 ∈ incomeTaxFieldNames ∧ pyStrip q.2 = q.2 := by
  have h : IncomeInv (parse_income_tax_text text) :=
    foldl_income_inv _ [] ⟨List.nodup_nil, by simp⟩
  exact ⟨h.1, h.2⟩

/-- Witness for C10: the membership clause applied to the single entry
produced by a one-line document. -/
theorem parse_income_tax_invariants_witness :
    "Nature of Payment" ∈ incomeTaxFieldNames ∧
    pyStrip "TDS on Salary" = "TDS on Salary" :=
  (parse_income_tax_invariants "Nature of Payment: TDS on Salary").2
    ("Nature of Payment", "TDS on Salary") (by decide)

/-!
DocumentProcessor and Aggregator theorems (C7, C9).
-/

/-- Sample batch documents for the HDFC profile: documents 1 and 3 carry
the parseable reference receipt, document 2 the truncated one. -/
def sampleDoc1 : Doc := ⟨"doc1.pdf", hdfcRefDoc, []⟩

/-- The failing middle document of the sample batch. -/
def sampleDoc2 : Doc := ⟨"doc2.pdf", hdfcRefDoc10, []⟩

/-- The third sample document. -/
def sampleDoc3 : Doc := ⟨"doc3.pdf", hdfcRefDoc, []⟩

/-- C7: per-document failure isolation at the processing-loop boundary.
Every document contributes exactly one outcome (a row list or one error
report), so no failure aborts the batch; and in a three-document batch
whose middle document's parser raises, the loop still collects the rows
of documents 1 and 3, in order, plus exactly one error entry carrying
document 2's identifier and the exception message. -/
theorem batch_failure_isolation (p : Profile) (d1 d2 d3 : Doc)
    (r1 r3 : List UTRow) (e : String)
    (h1 : processOne p d1 = Except.ok r1)
    (h2 : processOne p d2 = Except.error e)
    (h3 : processOne p d3 = Except.ok r3) :
    (∀ docs : List Doc,
      (mainLoop p docs).1.length + (mainLoop p docs).2.length = docs.length) ∧
    mainLoop p [d1, d2, d3] =
      ([r1, r3], ["Error processing '" ++ d2.name ++ "': " ++ e]) ∧
    aggregate (mainLoop p [d1, d2, d3]).1 = r1 ++ r3 := by
  refine ⟨?_, ?_, ?_⟩
  · intro docs
    induction docs with
    | nil => rfl
    | cons d rest ih =>
      unfold mainLoop
      cases hpd : processOne p d <;> simp <;> omega
  · simp [mainLoop, h1, h2, h3]
  · simp [mainLoop, h1, h2, h3, aggregate]

/-- Witness for C7: the concrete three-document HDFC batch in which
document 2 is truncated. -/
theorem batch_failure_isolation_witness :
    mainLoop Profile.hdfcBank [sampleDoc1, sampleDoc2, sampleDoc3] =
      ([[hdfcRefFields], [hdfcRefFields]],
       ["Error processing 'doc2.pdf': list index out of range"]) :=
  (batch_failure_isolation Profile.hdfcBank sampleDoc1 sampleDoc2 sampleDoc3
    [hdfcRefFields] [hdfcRefFields] "list index out of range" rfl rfl rfl).2.1

/-- C9: the aggregation (`pd.concat` over the per-document frames) is
prefix-compatible and order-preserving: aggregating `[A, A]` is the
`[A]` aggregation followed by itself (so its first half equals the `[A]`
result exactly and repeated documents produce repeated rows — no
deduplication), aggregation distributes over batch concatenation (row
order follows document submission order), and a TDS Returns document's
frame always begins with its field-record row, followed by its line-item
rows. -/
theorem aggregate_prefix_compatible :
    (∀ A : List UTRow, aggregate [A, A] = aggregate [A] ++ aggregate [A]) ∧
    (∀ A : List UTRow, (aggregate [A, A]).take (aggregate [A]).length = aggregate [A]) ∧
    (∀ xs ys : List (List UTRow), aggregate (xs ++ ys) = aggregate xs ++ aggregate ys) ∧
    (∀ d : Doc, ∃ rest, processOne Profile.tdsReturns d =
      Except.ok (strRecordToUTRow (extract_details_from_pdf d.text) :: rest)) := by
  refine ⟨?_, ?_, ?_, ?_⟩
  · intro A; simp [aggregate]
  · intro A; simp [aggregate, List.take_left]
  · intro xs ys; simp [aggregate]
  · intro d; exact ⟨_, rfl⟩

end TDS
